import Mathlib

/-!
Verification of the WH23xx station driver (`bin/user/wh23xx.py`).

The protocol engine of the driver and decoders are embedded shallowly:

* byte buffers are `List Nat` (every byte delivered by the transport is
  `0 ≤ b < 256`; the Python code never relies on that bound, and neither
  do the definitions below);
* Python float arithmetic is modelled exactly over `ℚ` (the only float
  operations performed are divisions by 10/100/1000 and subtraction of
  40.0, and the only float comparison is against `0xffffff / 10.0`,
  which is injective at the magnitudes involved);
* a Python function that raises is embedded as a function into `Except`;
  an out-of-range list index (Python `IndexError`) is a distinguished
  error value;
* the two unbounded device-read loops (the reassembly loop of
  `_read_record` and the retry loop of `WH23xxDriver._get_current`) are
  embedded with an
  explicit fuel argument counting loop iterations: a result of `none`
  means the loop is still running after that many iterations.
-/

namespace WH23xx

instance {ε α : Type} [DecidableEq ε] [DecidableEq α] : DecidableEq (Except ε α) :=
  fun x y =>
    match x, y with
    | .ok a, .ok b =>
      if h : a = b then .isTrue (by rw [h]) else .isFalse (fun hh => h (Except.ok.inj hh))
    | .error e, .error f =>
      if h : e = f then .isTrue (by rw [h]) else .isFalse (fun hh => h (Except.error.inj hh))
    | .ok _, .error _ => .isFalse (fun hh => Except.noConfusion hh)
    | .error _, .ok _ => .isFalse (fun hh => Except.noConfusion hh)

/-! ## Constants (`WH23xxStation` class attributes) -/

def TIME_SYNC : Nat := 0x01
def READ_EEPROM : Nat := 0x02
def READ_RECORD : Nat := 0x04
def CLEAR_MAX_MIN_DAY : Nat := 0x09
def CLEAR_HISTORY : Nat := 0x0b

def ITEM_INTEMP : Nat := 0x01
def ITEM_OUTTEMP : Nat := 0x02
def ITEM_DEWPOINT : Nat := 0x03
def ITEM_WINDCHILL : Nat := 0x04
def ITEM_HEATINDEX : Nat := 0x05
def ITEM_INHUMI : Nat := 0x06
def ITEM_OUTHUMI : Nat := 0x07
def ITEM_ABSBARO : Nat := 0x08
def ITEM_RELBARO : Nat := 0x09
def ITEM_WINDDIRECTION : Nat := 0x0a
def ITEM_WINDSPEED : Nat := 0x0b
def ITEM_GUSTSPEED : Nat := 0x0c
def ITEM_RAINEVENT : Nat := 0x0d
def ITEM_RAINRATE : Nat := 0x0e
def ITEM_RAINHOUR : Nat := 0x0f
def ITEM_RAINDAY : Nat := 0x10
def ITEM_RAINWEEK : Nat := 0x11
def ITEM_RAINMONTH : Nat := 0x12
def ITEM_RAINYEAR : Nat := 0x13
def ITEM_RAINTOTALS : Nat := 0x14
def ITEM_LIGHT : Nat := 0x15
def ITEM_UV : Nat := 0x16
def ITEM_UVI : Nat := 0x17

def ITEM_TIME : Nat := 0x40
def ITEM_DATE : Nat := 0x80

/-! ## Module-level helpers -/

/-- `_calc_checksum(a)`: `s = 0; for x in a: s += x; return s & 0xff`. -/
def calc_checksum (a : List Nat) : Nat :=
  (a.foldl (· + ·) 0) &&& 0xff

/-- `_get_bit(x, bit)`: 1 if the bit is set, else 0. -/
def get_bit (x bit : Nat) : Nat :=
  if x &&& (1 <<< bit) = 1 <<< bit then 1 else 0

/-- The first loop of `_decode_bytes`: `for j in range(nbytes): if
buf[idx+j] != 0xff: break / else: return None` — true iff all `nbytes`
bytes starting at `idx` equal 0xff.  Recursion is over the leading byte
(`j = 0` first, exactly the order of the loop).  All accesses are in bounds
at every call site, so `getD _ 0` is exact. -/
def all_invalid : List Nat → Nat → Nat → Bool
  | _, _, 0 => true
  | buf, idx, n + 1 => buf.getD idx 0 == 0xff && all_invalid buf (idx + 1) n

/-- The MSB-first combination computed by the second loop of
`_decode_bytes`: `x = 0; for j in range(nbytes): x += buf[idx+j] <<
((nbytes-j-1)*8)`: the byte at `idx` is the most significant. -/
def msb_value : List Nat → Nat → Nat → Nat
  | _, _, 0 => 0
  | buf, idx, n + 1 => (buf.getD idx 0) <<< (8 * n) + msb_value buf (idx + 1) n

/-- `_decode_bytes(buf, idx, nbytes, func)`: if all `nbytes` bytes at
`idx` equal 0xff the value is invalid (`None`); otherwise combine the
bytes MSB first and apply `func`. -/
def decode_bytes (buf : List Nat) (idx nbytes : Nat) (func : ℚ → ℚ) : Option ℚ :=
  if all_invalid buf idx nbytes then
    none
  else
    some (func (msb_value buf idx nbytes))

/-- `_signed(x)`: `v = x & 0xf; if x & 0xf0 == 0xf0: v *= -1; return v`.
Sign-magnitude over the nibbles, not twos complement. -/
def signed (x : Nat) : Int :=
  if x &&& 0xf0 = 0xf0 then -((x &&& 0xf : Nat) : Int) else ((x &&& 0xf : Nat) : Int)

/-! ## `WH23xxStation.ITEM_MAPPING` -/

/-- The item table: identifier -> (label, number of data bytes,
conversion function).  The Python lambdas over floats are embedded over
`ℚ`. -/
def ITEM_MAPPING (item : Nat) : Option (String × Nat × (ℚ → ℚ)) :=
  if item = ITEM_INTEMP then some ("in_temp", 2, fun x => x / 10 - 40)
  else if item = ITEM_OUTTEMP then some ("out_temp", 2, fun x => x / 10 - 40)
  else if item = ITEM_DEWPOINT then some ("dewpoint", 2, fun x => x / 10 - 40)
  else if item = ITEM_WINDCHILL then some ("windchill", 2, fun x => x / 10 - 40)
  else if item = ITEM_HEATINDEX then some ("heatindex", 2, fun x => x / 10 - 40)
  else if item = ITEM_INHUMI then some ("in_humidity", 1, fun x => x)
  else if item = ITEM_OUTHUMI then some ("out_humidity", 1, fun x => x)
  else if item = ITEM_ABSBARO then some ("abs_baro", 2, fun x => x / 10)
  else if item = ITEM_RELBARO then some ("rel_baro", 2, fun x => x / 10)
  else if item = ITEM_WINDDIRECTION then some ("wind_dir", 2, fun x => x)
  else if item = ITEM_WINDSPEED then some ("wind_speed", 2, fun x => x / 10)
  else if item = ITEM_GUSTSPEED then some ("gust_speed", 2, fun x => x / 10)
  else if item = ITEM_RAINEVENT then some ("rain_event", 4, fun x => x / 10)
  else if item = ITEM_RAINRATE then some ("rain_rate", 4, fun x => x / 10)
  else if item = ITEM_RAINHOUR then some ("rain_hour", 4, fun x => x / 10)
  else if item = ITEM_RAINDAY then some ("rain_day", 4, fun x => x / 10)
  else if item = ITEM_RAINWEEK then some ("rain_week", 4, fun x => x / 10)
  else if item = ITEM_RAINMONTH then some ("rain_month", 4, fun x => x / 10)
  else if item = ITEM_RAINYEAR then some ("rain_year", 4, fun x => x / 10)
  else if item = ITEM_RAINTOTALS then some ("rain_totals", 4, fun x => x / 10)
  else if item = ITEM_LIGHT then some ("light", 4, fun x => x / 10)
  else if item = ITEM_UV then some ("uv", 2, fun x => x / 1000)
  else if item = ITEM_UVI then some ("uvi", 1, fun x => x)
  else none

/-! ## `WH23xxStation.decode_weather_data` -/

/-- One observation dictionary built by `decode_weather_data`: the
`value` key (always present for a mapped item) and the optional `date`
(year-2000, month, day) and `time` (hour, minute) keys.  Python formats
date and time into strings; the components are kept instead. -/
structure Obs where
  value : Option ℚ
  date : Option (Nat × Nat × Nat)
  time : Option (Nat × Nat)
  deriving Repr, DecidableEq

inductive DecodeError where
  /-- `raise weewx.WeeWxIOError("no mapping for id ...")` (the masked id). -/
  | unknownItem (id : Nat)
  /-- `raise weewx.WeeWxIOError("not enough bytes for <label> ...")`. -/
  | truncated (label : String) (nbytes : Nat)
  /-- Python `IndexError` from an unchecked out-of-bounds `raw[i]`. -/
  | indexError
  deriving Repr, DecidableEq

/-- Masking of the tag byte (lines 683–689): the date/time flag bits are
tested and, when set, cleared (subtracting a set bit equals the Python
`item & ~FLAG`). -/
def masked_item (item_raw : Nat) : Nat :=
  let item := if item_raw &&& ITEM_DATE ≠ 0 then item_raw - ITEM_DATE else item_raw
  if item_raw &&& ITEM_TIME ≠ 0 then item - ITEM_TIME else item

/-- The Python dict assignment `data[label] = obs`: overwrite an existing
key, otherwise append. -/
def dict_insert (data : List (String × Obs)) (label : String) (obs : Obs) :
    List (String × Obs) :=
  if data.any (fun p => p.1 = label) then
    data.map (fun p => if p.1 = label then (label, obs) else p)
  else
    data ++ [(label, obs)]

/-- The `while i < len(raw)` loop of `decode_weather_data`.  The cursor
is represented by the remaining suffix `l = raw[i:]`; all further
indexing is relative to it (the Python loop only ever looks at indices
`≥ i`). -/
def decode_loop : List Nat → List (String × Obs) →
    Except DecodeError (List (String × Obs))
  | [], data => .ok data
  | item_raw :: rest, data =>
    let has_date := item_raw &&& ITEM_DATE ≠ 0
    let has_time := item_raw &&& ITEM_TIME ≠ 0
    let item := masked_item item_raw
    match ITEM_MAPPING item with
    | none => .error (.unknownItem item)
    | some (label, nbytes, func) =>
      -- `if i + mapping[1] - 1 >= len(raw)`: with `rest = raw[i:]` this is
      -- `rest.length < nbytes` (the table widths are all ≥ 1).
      if rest.length < nbytes then .error (.truncated label nbytes)
      else
        let value := decode_bytes rest 0 nbytes func
        let rest1 := rest.drop nbytes
        -- `obs[date] = %04d.%02d.%02d % (2000+raw[i], raw[i+1], raw[i+2])`:
        -- the first missing index raises IndexError.
        if has_date ∧ rest1.length < 3 then .error .indexError
        else
          let date := if has_date then
              some (rest1.getD 0 0, rest1.getD 1 0, rest1.getD 2 0) else none
          let rest2 := if has_date then rest1.drop 3 else rest1
          if has_time ∧ rest2.length < 2 then .error .indexError
          else
            let tm := if has_time then some (rest2.getD 0 0, rest2.getD 1 0) else none
            let rest3 := if has_time then rest2.drop 2 else rest2
            -- workaround firmware bug for invalid light value
            let value := if item = ITEM_LIGHT ∧ value = some ((0xffffff : ℚ) / 10) then
                none else value
            decode_loop rest3 (dict_insert data label ⟨value, date, tm⟩)
termination_by l _ => l.length
decreasing_by
  simp only [List.length_drop, List.length_cons]
  split_ifs <;> simp only [List.length_drop] <;> omega

/-- `WH23xxStation.decode_weather_data(raw)`. -/
def decode_weather_data (raw : List Nat) :
    Except DecodeError (List (String × Obs)) :=
  decode_loop raw []

/-! ## Facts about the item table -/

/-- Identifiers at or above 0x18 are not in the item table. -/
lemma ITEM_MAPPING_ge (n : Nat) : ITEM_MAPPING (n + 0x18) = none := rfl

/-- The declared field width of an identifier, 0 for unmapped ones. -/
def widthOf (item : Nat) : Nat :=
  ((ITEM_MAPPING item).map (fun e => e.2.1)).getD 0

lemma flags_aux :
    ∀ item < 0x18, (ITEM_MAPPING item).isSome = true →
      item &&& ITEM_DATE = 0 ∧ item &&& ITEM_TIME = 0 ∧ masked_item item = item := by
  decide

lemma width_aux :
    ∀ item < 0x18, (ITEM_MAPPING item).isSome = true →
      widthOf item = 1 ∨ widthOf item = 2 ∨ widthOf item = 4 := by
  decide

lemma ITEM_MAPPING_isSome_lt {item : Nat} (hs : (ITEM_MAPPING item).isSome = true) :
    item < 0x18 := by
  by_contra hlt
  have he : ITEM_MAPPING item = none := by
    have h24 : item - 0x18 + 0x18 = item := by omega
    rw [← h24]; exact ITEM_MAPPING_ge _
  rw [he] at hs
  cases hs

/-- Every identifier in the item table has neither flag bit set, so the
masking step leaves it unchanged. -/
lemma ITEM_MAPPING_flags {item : Nat} {e : String × Nat × (ℚ → ℚ)}
    (h : ITEM_MAPPING item = some e) :
    item &&& ITEM_DATE = 0 ∧ item &&& ITEM_TIME = 0 ∧ masked_item item = item := by
  have hs : (ITEM_MAPPING item).isSome = true := by rw [h]; rfl
  exact flags_aux item (ITEM_MAPPING_isSome_lt hs) hs

/-- Every entry of the item table declares a field width of 1, 2 or 4
bytes. -/
lemma ITEM_MAPPING_width {item nbytes : Nat} {label : String} {func : ℚ → ℚ}
    (h : ITEM_MAPPING item = some (label, nbytes, func)) :
    nbytes = 1 ∨ nbytes = 2 ∨ nbytes = 4 := by
  have hs : (ITEM_MAPPING item).isSome = true := by rw [h]; rfl
  have hw : widthOf item = nbytes := by simp [widthOf, h]
  have := width_aux item (ITEM_MAPPING_isSome_lt hs) hs
  omega

/-- One full iteration of the decode loop on a flagless tag followed by
exactly its declared data bytes. -/
lemma decode_loop_single (item : Nat) (label : String) (nbytes : Nat) (func : ℚ → ℚ)
    (hmap : ITEM_MAPPING item = some (label, nbytes, func))
    (databytes : List Nat) (hlen : databytes.length = nbytes)
    (data : List (String × Obs)) :
    decode_loop (item :: databytes) data =
      .ok (dict_insert data label
        ⟨if item = ITEM_LIGHT ∧
              decode_bytes databytes 0 nbytes func = some ((0xffffff : ℚ) / 10)
            then none else decode_bytes databytes 0 nbytes func,
          none, none⟩) := by
  obtain ⟨hd, ht, hm⟩ := ITEM_MAPPING_flags hmap
  subst hlen
  simp only [decode_loop, hm, hmap, hd, ht, ne_eq, not_true_eq_false,
    lt_self_iff_false, if_false, false_and, List.drop_length, List.length_nil,
    ite_false]

/-! ## Claim C1 -/

/-- **C1 counterexample.**  The claim states that whenever not all data
bytes of a field are 0xff, the recorded value is the MSB-first
combination with the table conversion applied.  For the light field with
data bytes `00 ff ff ff` the bytes are not all 0xff and the conversion
yields `0xffffff / 10`, yet `decode_weather_data` records the value as
absent (the firmware-quirk override). -/
theorem C1_counterexample :
    all_invalid [0x00, 0xff, 0xff, 0xff] 0 4 = false ∧
    msb_value [0x00, 0xff, 0xff, 0xff] 0 4 = 0xffffff ∧
    decode_weather_data [0x15, 0x00, 0xff, 0xff, 0xff] =
      .ok [("light", ⟨none, none, none⟩)] ∧
    some ((0xffffff : ℚ) / 10) ≠ (none : Option ℚ) := by
  refine ⟨by decide, by decide, ?_, by simp⟩
  simp +decide [decode_weather_data, decode_loop, masked_item, ITEM_MAPPING,
    decode_bytes, all_invalid, msb_value, dict_insert, ITEM_DATE, ITEM_TIME,
    ITEM_LIGHT]

/-- **C1 (amended).**  For every entry of the weather-data item table
(field width in {1,2,4}) and every data-byte buffer of exactly that
width: if all width bytes are 0xff the recorded value is absent (None);
otherwise the value is the bytes combined most-significant-byte-first
with the conversion function of the entry applied — except that the
light value is also recorded as absent when its converted value equals
0xffffff / 10 (the firmware-quirk override of `decode_weather_data`). -/
theorem C1_field_value_decoding
    (item : Nat) (label : String) (nbytes : Nat) (func : ℚ → ℚ)
    (hmap : ITEM_MAPPING item = some (label, nbytes, func))
    (databytes : List Nat) (hlen : databytes.length = nbytes)
    (data : List (String × Obs)) :
    (nbytes = 1 ∨ nbytes = 2 ∨ nbytes = 4) ∧
    decode_loop (item :: databytes) data =
      .ok (dict_insert data label
        ⟨if all_invalid databytes 0 nbytes then none
          else if item = ITEM_LIGHT ∧
              func (msb_value databytes 0 nbytes) = (0xffffff : ℚ) / 10 then none
          else some (func (msb_value databytes 0 nbytes)),
          none, none⟩) ∧
    decode_weather_data (item :: databytes) =
      .ok [(label,
        ⟨if all_invalid databytes 0 nbytes then none
          else if item = ITEM_LIGHT ∧
              func (msb_value databytes 0 nbytes) = (0xffffff : ℚ) / 10 then none
          else some (func (msb_value databytes 0 nbytes)),
          none, none⟩)] := by
  refine ⟨ITEM_MAPPING_width hmap, ?_, ?_⟩
  · rw [decode_loop_single item label nbytes func hmap databytes hlen data]
    cases hai : all_invalid databytes 0 nbytes <;> simp [decode_bytes, hai]
  · rw [decode_weather_data, decode_loop_single item label nbytes func hmap databytes hlen []]
    cases hai : all_invalid databytes 0 nbytes <;> simp [decode_bytes, dict_insert, hai]

/-- Witness for C1: tag 0x02 (out_temp, width 2) with data bytes
`02 13` decodes to `531 / 10 - 40`. -/
theorem C1_witness :
    ITEM_MAPPING 0x02 = some ("out_temp", 2, fun x : ℚ => x / 10 - 40) ∧
    ([0x02, 0x13] : List Nat).length = 2 ∧
    decode_weather_data [0x02, 0x02, 0x13] =
      .ok [("out_temp", ⟨some ((531 : ℚ) / 10 - 40), none, none⟩)] := by
  refine ⟨rfl, rfl, ?_⟩
  have h := (C1_field_value_decoding 0x02 "out_temp" 2 (fun x => x / 10 - 40) rfl
      [0x02, 0x13] rfl []).2.2
  have hmsb : msb_value [0x02, 0x13] 0 2 = 531 := by decide
  have hai : all_invalid [0x02, 0x13] 0 2 = false := by decide
  rw [h]
  simp +decide [hai, hmsb, ITEM_LIGHT]

/-! ## Claim C3 -/

/-- **C3.**  A tag byte whose masked base identifier is not in the item
table makes the decode loop (and hence `decode_weather_data`, which is
the loop started on the whole buffer) abort immediately with the
unknown-item error, whatever was decoded before; a known tag whose
declared width exceeds the remaining bytes aborts with the truncation
error.  The return type contains no partial mapping in the error case. -/
theorem C3_unknown_and_truncated_abort :
    (∀ (t : Nat) (rest : List Nat) (data : List (String × Obs)),
        ITEM_MAPPING (masked_item t) = none →
        decode_loop (t :: rest) data = .error (.unknownItem (masked_item t))) ∧
    (∀ (t : Nat) (rest : List Nat) (data : List (String × Obs))
        (label : String) (nbytes : Nat) (func : ℚ → ℚ),
        ITEM_MAPPING (masked_item t) = some (label, nbytes, func) →
        rest.length < nbytes →
        decode_loop (t :: rest) data = .error (.truncated label nbytes)) ∧
    (∀ (t : Nat) (rest : List Nat),
        ITEM_MAPPING (masked_item t) = none →
        decode_weather_data (t :: rest) = .error (.unknownItem (masked_item t))) ∧
    (∀ (t : Nat) (rest : List Nat) (label : String) (nbytes : Nat) (func : ℚ → ℚ),
        ITEM_MAPPING (masked_item t) = some (label, nbytes, func) →
        rest.length < nbytes →
        decode_weather_data (t :: rest) = .error (.truncated label nbytes)) := by
  have hu : ∀ (t : Nat) (rest : List Nat) (data : List (String × Obs)),
      ITEM_MAPPING (masked_item t) = none →
      decode_loop (t :: rest) data = .error (.unknownItem (masked_item t)) := by
    intro t rest data hmap
    simp only [decode_loop, hmap]
  have htr : ∀ (t : Nat) (rest : List Nat) (data : List (String × Obs))
      (label : String) (nbytes : Nat) (func : ℚ → ℚ),
      ITEM_MAPPING (masked_item t) = some (label, nbytes, func) →
      rest.length < nbytes →
      decode_loop (t :: rest) data = .error (.truncated label nbytes) := by
    intro t rest data label nbytes func hmap hlt
    simp only [decode_loop, hmap, if_pos hlt]
  exact ⟨hu, htr, fun t rest h => hu t rest [] h,
    fun t rest label nbytes func h hlt => htr t rest [] label nbytes func h hlt⟩

/-- Witness for C3: tag 0x20 is unknown; tag 0x01 (in_temp, width 2)
with no data bytes is truncated. -/
theorem C3_witness :
    ITEM_MAPPING (masked_item 0x20) = none ∧
    decode_weather_data [0x20] = .error (.unknownItem (masked_item 0x20)) ∧
    ITEM_MAPPING (masked_item 0x01) = some ("in_temp", 2, fun x : ℚ => x / 10 - 40) ∧
    ([] : List Nat).length < 2 ∧
    decode_weather_data [0x01] = .error (.truncated "in_temp" 2) := by
  refine ⟨rfl, ?_, rfl, by decide, ?_⟩
  · exact C3_unknown_and_truncated_abort.2.2.1 0x20 [] rfl
  · exact C3_unknown_and_truncated_abort.2.2.2 0x01 [] "in_temp" 2
      (fun x : ℚ => x / 10 - 40) rfl (by decide)

/-! ## Claim C9 -/

/-- **C9.**  When the decoded item is the light field and its converted
value equals `0xffffff / 10`, the recorded value is overridden to
absent; the value of any other item is recorded exactly as
`_decode_bytes` produced it, with no override. -/
theorem C9_light_sentinel_override :
    (∀ databytes : List Nat, databytes.length = 4 →
        decode_bytes databytes 0 4 (fun x : ℚ => x / 10) = some ((0xffffff : ℚ) / 10) →
        ∀ data, decode_loop (ITEM_LIGHT :: databytes) data =
          .ok (dict_insert data "light" ⟨none, none, none⟩)) ∧
    (∀ (item : Nat) (label : String) (nbytes : Nat) (func : ℚ → ℚ),
        ITEM_MAPPING item = some (label, nbytes, func) → item ≠ ITEM_LIGHT →
        ∀ databytes : List Nat, databytes.length = nbytes →
        ∀ data, decode_loop (item :: databytes) data =
          .ok (dict_insert data label ⟨decode_bytes databytes 0 nbytes func, none, none⟩)) := by
  constructor
  · intro databytes hlen hsent data
    have hmap : ITEM_MAPPING ITEM_LIGHT = some ("light", 4, fun x : ℚ => x / 10) := rfl
    rw [decode_loop_single ITEM_LIGHT "light" 4 (fun x : ℚ => x / 10) hmap databytes hlen data]
    simp [hsent]
  · intro item label nbytes func hmap hne databytes hlen data
    rw [decode_loop_single item label nbytes func hmap databytes hlen data]
    simp [hne]

/-- Witness for C9: light bytes `00 ff ff ff` convert to the sentinel
and are overridden to absent; the uv field (0x16) is not overridden. -/
theorem C9_witness :
    (([0x00, 0xff, 0xff, 0xff] : List Nat).length = 4) ∧
    decode_bytes [0x00, 0xff, 0xff, 0xff] 0 4 (fun x : ℚ => x / 10) =
      some ((0xffffff : ℚ) / 10) ∧
    decode_loop (ITEM_LIGHT :: [0x00, 0xff, 0xff, 0xff]) [] =
      .ok (dict_insert [] "light" ⟨none, none, none⟩) ∧
    ITEM_MAPPING 0x16 = some ("uv", 2, fun x : ℚ => x / 1000) ∧
    (0x16 : Nat) ≠ ITEM_LIGHT ∧
    decode_loop ((0x16 : Nat) :: [0x01, 0x02]) [] =
      .ok (dict_insert [] "uv"
        ⟨decode_bytes [0x01, 0x02] 0 2 (fun x : ℚ => x / 1000), none, none⟩) := by
  have hq : decode_bytes [0x00, 0xff, 0xff, 0xff] 0 4 (fun x : ℚ => x / 10) =
      some ((0xffffff : ℚ) / 10) := by
    have hm : msb_value [0x00, 0xff, 0xff, 0xff] 0 4 = 0xffffff := by decide
    have ha : all_invalid [0x00, 0xff, 0xff, 0xff] 0 4 = false := by decide
    simp [decode_bytes, hm, ha]
  refine ⟨rfl, hq, C9_light_sentinel_override.1 [0x00, 0xff, 0xff, 0xff] rfl hq [],
    rfl, by decide,
    C9_light_sentinel_override.2 0x16 "uv" 2 (fun x : ℚ => x / 1000) rfl (by decide)
      [0x01, 0x02] rfl []⟩

/-! ## Claim C10 -/

/-- **C10.**  The truncation check covers only the declared data width,
not the optional date/time suffixes: a buffer that ends right after the
data field of a tag carrying the date flag 0x80 (or the time flag 0x40)
makes `decode_weather_data` index past the end of the buffer (Python
`IndexError`) instead of raising the documented truncation error. -/
theorem C10_suffix_bytes_unchecked :
    decode_weather_data [0x81, 0x00, 0x30] = .error .indexError ∧
    decode_weather_data [0x41, 0x00, 0x30] = .error .indexError ∧
    (∀ (label : String) (nbytes : Nat),
      DecodeError.indexError ≠ DecodeError.truncated label nbytes) := by
  refine ⟨?_, ?_, by intro label nbytes h; cases h⟩ <;>
    simp +decide [decode_weather_data, decode_loop, masked_item, ITEM_MAPPING,
      decode_bytes, all_invalid, msb_value, dict_insert, ITEM_DATE, ITEM_TIME,
      ITEM_INTEMP]

/-! ## `WH23xxStation.decode_history_record` -/

/-- The dictionary built by `decode_history_record` for one 18-byte
record.  `Option` fields are `None` exactly on the sentinel
checks; fixed-point scalings are over `ℚ`. -/
structure HistoryRecord where
  wind_dir : Option Nat
  wind_speed : Option ℚ
  gust_speed : Option ℚ
  rain_total : ℚ
  rain_overflow : Nat
  no_sensors : Nat
  humidity_in : Option Nat
  humidity_out : Option Nat
  temperature_in : Option ℚ
  temperature_out : Option ℚ
  pressure : Option ℚ
  light : Option ℚ
  uv : Option ℚ
  deriving Repr, DecidableEq

/-- `WH23xxStation.decode_history_record(raw)`: an empty or wrong-length
buffer yields the empty dictionary (modelled `none`); otherwise the 18
bytes are decoded positionally (the pattern match is the shallow
embedding of `len(raw) == 18` plus the direct `raw[i]` indexing). -/
def decode_history_record : List Nat → Option HistoryRecord
  | [b0, b1, b2, b3, b4, b5, b6, b7, b8, b9, b10, b11,
     b12, b13, b14, b15, b16, b17] =>
    some {
      wind_dir :=
        let x := ((b0 &&& 0x01) <<< 8) + b1
        if x = 0x1ff then none else some x
      wind_speed :=
        let x := (((b0 &&& 0x02) / 0x02) <<< 8) + b2
        if x = 0x1ff then none else some ((x : ℚ) / 10)
      gust_speed :=
        let x := (((b0 &&& 0x04) / 0x04) <<< 8) + b3
        if x = 0x1ff then none else some ((x : ℚ) / 10)
      rain_total :=
        (((((b0 &&& 0x08) / 0x08) <<< 16) + (b5 <<< 8) + b4 : Nat) : ℚ) * (0.1 : ℚ)
      rain_overflow := (b0 &&& 0x10) / 0x10
      no_sensors := (b0 &&& 0x80) / 0x80
      humidity_in := if b6 = 0xff then none else some b6
      humidity_out := if b7 = 0xff then none else some b7
      temperature_in :=
        let x := ((b9 &&& 0x0f) <<< 8) + b8
        if x = 0xfff then none else some ((x : ℚ) / 10 - 40)
      temperature_out :=
        -- the formula of the source: the high nibble of byte 9 is shifted to
        -- bits 12..15, not bits 8..11
        let x := ((b9 &&& 0xf0) <<< 8) + b10
        if x = 0xfff then none else some ((x : ℚ) / 10 - 40)
      pressure :=
        let x := (b11 <<< 8) + b12
        if x = 0xffff then none else some ((x : ℚ) / 10)
      light :=
        let x := (b15 <<< 16) + (b14 <<< 8) + b13
        if x = 0xffffff then none else some ((x : ℚ) / 10)
      uv :=
        let x := (b17 <<< 8) + b16
        if x = 0xffff then none else some ((x : ℚ) / 1000) }
  | _ => none

/-! ## Claim C5 -/

/-- An 18-byte record whose bytes 8, 9 and 10 are all 0xff: the inside
temperature 12-bit value is 0xfff (absent); the claim says the same
for the outside temperature. -/
def c5_record : List Nat :=
  [0, 0, 0, 0, 0, 0, 0, 0, 0xff, 0xff, 0xff, 0, 0, 0, 0, 0, 0, 0]

set_option maxRecDepth 4096 in
/-- **C5.**  On `c5_record` the inside temperature is decoded as absent,
as the claim says, but the outside temperature is decoded as
`61695 / 10 - 40` (= 6129.5 °C) and not as absent: the code computes
`((raw[9] & 0xf0) << 8) + raw[10]` (high nibble at bits 12..15) and
compares it with 0xfff, while the 12-bit value of the claim (high nibble at
bits 8..11) is 0xfff.  Moreover the sentinel comparison of the code is
unsatisfiable for byte-valued inputs, so its `None` branch is dead. -/
theorem C5_temperature_out_bug :
    (decode_history_record c5_record).map
        (fun r => (r.temperature_in, r.temperature_out)) =
      some (none, some ((61695 : ℚ) / 10 - 40)) ∧
    (((c5_record.getD 9 0) >>> 4) <<< 8) + c5_record.getD 10 0 = 0xfff ∧
    (some ((61695 : ℚ) / 10 - 40) ≠ (none : Option ℚ)) ∧
    (∀ b9 b10 : Nat, b9 < 256 → b10 < 256 →
      ((b9 &&& 0xf0) <<< 8) + b10 ≠ 0xfff) := by
  have hdvd : ∀ b9 : Nat, b9 < 256 → 16 ∣ (b9 &&& 0xf0) := by decide
  refine ⟨?_, by decide, by simp, ?_⟩
  · have h1 : ((0xff &&& 0x0f : Nat) <<< 8) + 0xff = 0xfff := by decide
    have h2 : ((0xff &&& 0xf0 : Nat) <<< 8) + 0xff = 61695 := by decide
    simp +decide [c5_record, decode_history_record, h1, h2]
  · intro b9 b10 h9 h10
    obtain ⟨q, hq⟩ := hdvd b9 h9
    have hle : b9 &&& 0xf0 ≤ b9 := Nat.and_le_left
    have h256 : (2 : Nat) ^ 8 = 256 := by norm_num
    rw [Nat.shiftLeft_eq, hq, h256]
    omega

/-- Witness for the universally quantified conjunct of C5: bytes
0xff/0xfe cannot produce the sentinel under the formula of the code. -/
theorem C5_witness :
    ((0xff : Nat) < 256) ∧ ((0xfe : Nat) < 256) ∧
    (((0xff &&& 0xf0 : Nat) <<< 8) + 0xfe ≠ 0xfff) := by
  exact ⟨by decide, by decide,
    C5_temperature_out_bug.2.2.2 0xff 0xfe (by decide) (by decide)⟩

/-! ## `WH23xxStation.decode_station_info` (timezone field) and Claim C6 -/

/-- The `data[timezone] = _signed(raw[0x1c])` assignment of
`decode_station_info` (source line 802).  The surrounding dictionary
entries are independent per-key assignments from other offsets and are
not needed by any claim. -/
def decode_station_info_timezone (raw : List Nat) : Int :=
  signed (raw.getD 0x1c 0)

/-- **C6 counterexample.**  The claim says the timezone byte 0xFE
decodes to the 4-bit twos-complement value -2; `_signed` actually
decodes it to -14 (sign-magnitude: low nibble negated when the high
nibble is 0xF). -/
theorem C6_counterexample :
    decode_station_info_timezone (List.replicate 28 0 ++ [0xfe]) = -14 ∧
    signed 0xfe = -14 ∧ ((-14 : Int) ≠ -2) := by decide

/-- **C6 (amended).**  `decode_station_info` decodes the timezone byte
in sign-magnitude form: the low nibble is the magnitude, negated exactly
when the high nibble equals 0xF.  The value -2 is represented by 0xF2;
0xFE decodes to -14. -/
theorem C6_timezone_sign_magnitude :
    (∀ raw : List Nat,
      decode_station_info_timezone raw =
        (if (raw.getD 0x1c 0) &&& 0xf0 = 0xf0
          then -(((raw.getD 0x1c 0) &&& 0xf : Nat) : Int)
          else (((raw.getD 0x1c 0) &&& 0xf : Nat) : Int))) ∧
    signed 0xf2 = -2 ∧ signed 0xfe = -14 := by
  exact ⟨fun raw => rfl, by decide, by decide⟩

/-! ## Outbound command frames and Claim C7 -/

/-- The Python `&` with 0xff is reduction mod 256. -/
lemma and_ff_eq_mod (n : Nat) : n &&& 0xff = n % 256 := by
  have h := Nat.and_pow_two_sub_one_eq_mod n 8
  norm_num at h
  exact h

/-- The checksum is the low 8 bits of the byte sum. -/
lemma calc_checksum_eq_mod (a : List Nat) :
    calc_checksum a = (a.foldl (· + ·) 0) % 256 := by
  rw [calc_checksum, and_ff_eq_mod]

/-- The command+payload list built by `_time_sync` (line 517): the
caller passes the broken-down local time; the sub-second field is fixed
at 0. -/
def time_sync_cmd (year mon mday hour minute sec : Nat) : List Nat :=
  [TIME_SYNC, year - 2000, mon, mday, hour, minute, sec, 0]

/-- The full frame written by `_time_sync`: envelope `[0x02, 0x09]`,
then the command bytes, then the recomputed checksum. -/
def time_sync_frame (year mon mday hour minute sec : Nat) : List Nat :=
  [0x02, 0x09] ++ time_sync_cmd year mon mday hour minute sec ++
    [calc_checksum (time_sync_cmd year mon mday hour minute sec)]

/-- The command+payload list built by `_read_eeprom` (line 530):
address low byte first (little-endian), then size. -/
def read_eeprom_cmd (addr size : Nat) : List Nat :=
  [READ_EEPROM, addr &&& 0xff, (addr / 256) &&& 0xff, size]

/-- The full frame written by `_read_eeprom`: envelope `[0x02, 0x05]`,
command bytes, recomputed checksum. -/
def read_eeprom_frame (addr size : Nat) : List Nat :=
  [0x02, 0x05] ++ read_eeprom_cmd addr size ++
    [calc_checksum (read_eeprom_cmd addr size)]

/-- The frame written by `_read_record` (line 556). -/
def read_record_frame : List Nat :=
  [0x02, 0x02, READ_RECORD, READ_RECORD]

/-- The frame written by `_clear_max_min` (line 606). -/
def clear_max_min_frame : List Nat :=
  [0x02, 0x02, CLEAR_MAX_MIN_DAY, CLEAR_MAX_MIN_DAY]

/-- The frame written by `_clear_history` (line 614). -/
def clear_history_frame : List Nat :=
  [0x02, 0x02, CLEAR_HISTORY, CLEAR_HISTORY]

/-- **C7.**  Every outbound frame the engine builds consists of its
two envelope marker bytes, the command+payload bytes, and a trailing
checksum byte equal to the low 8 bits of the sum of the command+payload
bytes only — the envelope bytes are never included in the sum.  (For the
three fixed command/echo frames the trailing byte coincides with that
checksum of the single command byte.) -/
theorem C7_checksum_over_cmd_payload :
    (∀ year mon mday hour minute sec : Nat,
      time_sync_frame year mon mday hour minute sec =
        [0x02, 0x09] ++ time_sync_cmd year mon mday hour minute sec ++
          [((time_sync_cmd year mon mday hour minute sec).foldl (· + ·) 0) % 256]) ∧
    (∀ addr size : Nat,
      read_eeprom_frame addr size =
        [0x02, 0x05] ++ read_eeprom_cmd addr size ++
          [((read_eeprom_cmd addr size).foldl (· + ·) 0) % 256]) ∧
    read_record_frame =
      [0x02, 0x02] ++ [READ_RECORD] ++ [([READ_RECORD].foldl (· + ·) 0) % 256] ∧
    clear_max_min_frame =
      [0x02, 0x02] ++ [CLEAR_MAX_MIN_DAY] ++
        [([CLEAR_MAX_MIN_DAY].foldl (· + ·) 0) % 256] ∧
    clear_history_frame =
      [0x02, 0x02] ++ [CLEAR_HISTORY] ++
        [([CLEAR_HISTORY].foldl (· + ·) 0) % 256] := by
  refine ⟨fun y mo d h mi s => ?_, fun addr size => ?_, by decide, by decide, by decide⟩
  · rw [time_sync_frame, calc_checksum_eq_mod]
  · rw [read_eeprom_frame, calc_checksum_eq_mod]

/-! ## `WH23xxStation._read_eeprom` reply handling and Claim C4 -/

inductive EepromError where
  /-- `raise weewx.WeeWxIOError(read_eeprom failed: empty read)`. -/
  | emptyRead
  /-- `raise weewx.WeeWxIOError(read_eeprom: bad reply: ...)`. -/
  | badReply
  /-- Python `IndexError` while formatting/logging `buf[0..3]` on a
  reply shorter than 4 bytes. -/
  | indexError
  deriving Repr, DecidableEq

/-- The reply-validation half of `_read_eeprom` (lines 542-552), applied
to the single USB packet read back: empty replies fail; then
`buf[0] != 0x01 or buf[2] != READ_EEPROM` fails with the bad-reply error
(whose message formats `buf[0..3]`, so replies shorter than 4 bytes
raise `IndexError` instead); `buf[3]` is logged (another potential
`IndexError`) but never checked; on success all of `buf[4:]` is
returned. -/
def read_eeprom_reply (buf : List Nat) : Except EepromError (List Nat) :=
  if buf.length = 0 then .error .emptyRead
  else if buf.getD 0 0 ≠ 0x01 then
    (if buf.length < 4 then .error .indexError else .error .badReply)
  else if buf.length < 3 then .error .indexError
  else if buf.getD 2 0 ≠ READ_EEPROM then
    (if buf.length < 4 then .error .indexError else .error .badReply)
  else if buf.length < 4 then .error .indexError
  else .ok (buf.drop 4)

/-- A well-formed 64-byte reply packet declaring a size of 56 bytes. -/
def c4_reply : List Nat := [0x01, 0x3c, 0x02, 0x38] ++ List.replicate 60 0x11

/-- **C4 counterexample.**  The claim says the payload returned on
success has length equal to the declared size of the reply; on a 64-byte
packet declaring size 56 the code returns `buf[4:]`, which has 60
bytes — the declared size is logged but neither validated nor used to
truncate. -/
theorem C4_counterexample :
    c4_reply.length = 64 ∧
    c4_reply.getD 0 0 = 0x01 ∧
    c4_reply.getD 2 0 = READ_EEPROM ∧
    c4_reply.getD 3 0 = 56 ∧
    read_eeprom_reply c4_reply = .ok (c4_reply.drop 4) ∧
    (c4_reply.drop 4).length = 60 ∧
    (c4_reply.drop 4).length ≠ c4_reply.getD 3 0 := by decide

/-- **C4 (amended).**  `_read_eeprom` sends the READ_EEPROM command with
the address split little-endian (low byte before high byte) and the
requested size; it fails with the bad-reply error when the echoed
command byte of a (≥ 4 byte) reply does not match; on success it returns
all bytes after the 4-byte reply header — their count is the packet
length minus 4, and the declared-size byte `buf[3]` is not used to
validate or truncate. -/
theorem C4_read_eeprom_behaviour :
    (∀ addr size : Nat,
      read_eeprom_frame addr size =
        [0x02, 0x05, READ_EEPROM, addr % 256, (addr / 256) % 256, size,
          calc_checksum [READ_EEPROM, addr % 256, (addr / 256) % 256, size]]) ∧
    (∀ buf : List Nat, 4 ≤ buf.length → buf.getD 0 0 = 0x01 →
      buf.getD 2 0 ≠ READ_EEPROM → read_eeprom_reply buf = .error .badReply) ∧
    (∀ buf : List Nat, 4 ≤ buf.length → buf.getD 0 0 = 0x01 →
      buf.getD 2 0 = READ_EEPROM →
      read_eeprom_reply buf = .ok (buf.drop 4) ∧
        (buf.drop 4).length = buf.length - 4) := by
  refine ⟨fun addr size => ?_, fun buf hlen h0 h2 => ?_, fun buf hlen h0 h2 => ?_⟩
  · simp [read_eeprom_frame, read_eeprom_cmd, and_ff_eq_mod]
  · rw [read_eeprom_reply, if_neg (by omega), if_neg (by simp only [h0]; decide),
      if_neg (by omega), if_pos h2, if_neg (by omega)]
  · rw [read_eeprom_reply, if_neg (by omega), if_neg (by simp only [h0]; decide),
      if_neg (by omega), if_neg (by simp only [h2]; decide), if_neg (by omega)]
    exact ⟨rfl, by simp⟩

/-- Witness for C4: a 4-byte reply with a wrong echoed command fails;
a 6-byte reply with the right echo returns its last 2 bytes. -/
theorem C4_witness :
    (4 ≤ ([0x01, 0x09, 0x09, 0x09] : List Nat).length) ∧
    ([0x01, 0x09, 0x09, 0x09] : List Nat).getD 0 0 = 0x01 ∧
    ([0x01, 0x09, 0x09, 0x09] : List Nat).getD 2 0 ≠ READ_EEPROM ∧
    read_eeprom_reply [0x01, 0x09, 0x09, 0x09] = .error .badReply ∧
    (4 ≤ ([0x01, 0x09, 0x02, 0x03, 0x07, 0x08] : List Nat).length) ∧
    ([0x01, 0x09, 0x02, 0x03, 0x07, 0x08] : List Nat).getD 2 0 = READ_EEPROM ∧
    read_eeprom_reply [0x01, 0x09, 0x02, 0x03, 0x07, 0x08] = .ok [0x07, 0x08] ∧
    ([0x07, 0x08] : List Nat).length = 6 - 4 := by
  refine ⟨by decide, by decide, by decide, ?_, by decide, by decide, ?_, by decide⟩
  · exact C4_read_eeprom_behaviour.2.1 [0x01, 0x09, 0x09, 0x09]
      (by decide) (by decide) (by decide)
  · exact (C4_read_eeprom_behaviour.2.2 [0x01, 0x09, 0x02, 0x03, 0x07, 0x08]
      (by decide) (by decide) (by decide)).1

/-! ## `WH23xxStation._read_record` and Claim C2 -/

inductive ReadRecordError where
  /-- `raise weewx.WeeWxIOError(read_record: bad first byte ...)`. -/
  | badFirstByte
  /-- `raise weewx.WeeWxIOError(read_record: missing READ_RECORD ...)`. -/
  | missingReadRecord
  /-- Python `IndexError` on a reply shorter than 4 bytes. -/
  | indexError
  deriving Repr, DecidableEq

/-- The `while len(tmp) < record_size` reassembly loop of `_read_record`
(lines 586-593, the one marked `FIXME: prevent infinite loop`).
`reads k` is the k-th subsequent transport read; each iteration appends
`buf[2:]`.  `fuel` bounds the number of reads the loop is allowed;
`none` means the loop is still running after issuing `fuel` reads. -/
def read_record_loop (record_size : Nat) (reads : Nat → List Nat) :
    Nat → Nat → List Nat → Option (List Nat)
  | fuel, k, tmp =>
    if tmp.length < record_size then
      match fuel with
      | 0 => none
      | fuel + 1 =>
        read_record_loop record_size reads fuel (k + 1) (tmp ++ (reads k).drop 2)
    else
      -- `rbuf = tmp[0:record_size]`: prune off any dangling bytes
      some (tmp.take record_size)

/-- `_read_record` after the command write: `first` is the first reply
packet, `reads` the subsequent ones.  An empty first read returns `None`
(no record ready); then the header is validated, `record_size = buf[3]`
is read, and the loop reassembles `buf[4:]` plus further reads.  The
record checksum is computed and logged but not enforced.  The outer
`Option` is the loop fuel: `none` means the reassembly loop has not
finished within `fuel` reads. -/
def read_record (first : List Nat) (reads : Nat → List Nat) (fuel : Nat) :
    Option (Except ReadRecordError (Option (List Nat))) :=
  if first.length = 0 then some (.ok none)
  else if first.getD 0 0 ≠ 0x01 then some (.error .badFirstByte)
  else if first.length < 3 then some (.error .indexError)
  else if first.getD 2 0 ≠ READ_RECORD then some (.error .missingReadRecord)
  else if first.length < 4 then some (.error .indexError)
  else
    (read_record_loop (first.getD 3 0) reads fuel 0 (first.drop 4)).map
      (fun rbuf => .ok (some rbuf))

/-- **C2 (bug).**  The claim says the reassembly loop performs a bounded
number of reads for every sequence of transport reads, including reads
that return no bytes.  It does not: with a declared record size of 5, an
empty first-packet payload and a transport that always returns no bytes
(so each iteration appends `buf[2:] = []`), the loop never finishes, no
matter how many reads it is allowed — exactly the `FIXME: prevent
infinite loop` in the source. -/
theorem C2_reassembly_unbounded :
    (∀ fuel k : Nat, read_record_loop 5 (fun _ => []) fuel k [] = none) ∧
    (∀ fuel : Nat,
      read_record [0x01, 0x40, 0x04, 0x05] (fun _ => []) fuel = none) := by
  have hloop : ∀ fuel k : Nat, read_record_loop 5 (fun _ => []) fuel k [] = none := by
    intro fuel
    induction fuel with
    | zero => intro k; rw [read_record_loop]; simp
    | succ n ih => intro k; rw [read_record_loop]; simpa using ih (k + 1)
  refine ⟨hloop, fun fuel => ?_⟩
  rw [read_record, if_neg (by decide), if_neg (by decide), if_neg (by decide),
    if_neg (by decide), if_neg (by decide)]
  have h4 : ([0x01, 0x40, 0x04, 0x05] : List Nat).drop 4 = [] := by decide
  have h3 : ([0x01, 0x40, 0x04, 0x05] : List Nat).getD 3 0 = 5 := by decide
  rw [h4, h3, hloop fuel 0]
  rfl

/-! ## `WH23xxDriver._get_current` retry loop and Claim C8 -/

/-- Outcome of one `self._station.get_current()` call as seen by the
retry loop: a value (possibly `None`), a `usb.USBError` whose message
contains `No data available` or `No error` (the transient case), or any
other `usb.USBError`. -/
inductive CallResult where
  | ok (v : Option (List Nat))
  | transientNoData
  | otherError
  deriving Repr, DecidableEq

inductive GetCurrentOutcome where
  /-- `return self._station.get_current()`. -/
  | success (v : Option (List Nat))
  /-- `raise weewx.RetriesExceeded(msg)` after the loop. -/
  | retriesExceeded
  deriving Repr, DecidableEq

/-- The `while ntries < self.max_tries` loop of `_get_current`
(lines 325-340).  `results k` is the outcome of the k-th call;
the loop body first increments `ntries`, returns on success, and
decrements back on the transient error (written `ntries + 1 - 1`
to mirror the `ntries += 1` / `ntries -= 1` pair); `retry_wait`
sleeps are irrelevant to the accounting.  `fuel` bounds the number of
iterations; `none` means the loop is still running. -/
def get_current_loop (max_tries : Nat) (results : Nat → CallResult) :
    Nat → Nat → Nat → Option GetCurrentOutcome
  | 0, _, _ => none
  | fuel + 1, k, ntries =>
    if ntries < max_tries then
      match results k with
      | .ok v => some (.success v)
      | .transientNoData =>
        get_current_loop max_tries results fuel (k + 1) (ntries + 1 - 1)
      | .otherError =>
        get_current_loop max_tries results fuel (k + 1) (ntries + 1)
    else some .retriesExceeded

/-- `WH23xxDriver._get_current`, starting at the first call with zero
used attempts. -/
def get_current (max_tries : Nat) (results : Nat → CallResult) (fuel : Nat) :
    Option GetCurrentOutcome :=
  get_current_loop max_tries results fuel 0 0

/-- **C8.**  In the retry loop: a transient no-data error leaves the
attempt counter unchanged (the next iteration starts with the same
`ntries`), any other transport error increments it by one, and when
every call fails with a non-transient error the call ends with
`RetriesExceeded` after exactly `max_tries` attempts. -/
theorem C8_retry_accounting :
    (∀ (mt : Nat) (res : Nat → CallResult) (fuel k n : Nat),
      n < mt → res k = .transientNoData →
      get_current_loop mt res (fuel + 1) k n =
        get_current_loop mt res fuel (k + 1) n) ∧
    (∀ (mt : Nat) (res : Nat → CallResult) (fuel k n : Nat),
      n < mt → res k = .otherError →
      get_current_loop mt res (fuel + 1) k n =
        get_current_loop mt res fuel (k + 1) (n + 1)) ∧
    (∀ (mt : Nat) (res : Nat → CallResult),
      (∀ j, res j = .otherError) →
      get_current mt res (mt + 1) = some .retriesExceeded) := by
  have key : ∀ (mt : Nat) (res : Nat → CallResult),
      (∀ j, res j = .otherError) →
      ∀ r k n, n + r = mt →
      get_current_loop mt res (r + 1) k n = some .retriesExceeded := by
    intro mt res hres r
    induction r with
    | zero =>
      intro k n hn
      rw [get_current_loop, if_neg (by omega)]
    | succ m ih =>
      intro k n hn
      rw [get_current_loop, if_pos (by omega), hres k]
      exact ih (k + 1) (n + 1) (by omega)
  refine ⟨fun mt res fuel k n hlt hres => ?_, fun mt res fuel k n hlt hres => ?_,
    fun mt res hres => key mt res hres mt 0 0 (by omega)⟩
  · rw [get_current_loop, if_pos hlt, hres]
    simp
  · rw [get_current_loop, if_pos hlt, hres]

/-- Witness for C8 at max_tries = 3: a transient result does not move
the counter, another error moves it by one, and all-failing calls end
with `retriesExceeded`. -/
theorem C8_witness :
    ((0 : Nat) < 3) ∧
    ((fun _ : Nat => CallResult.transientNoData) 0 = CallResult.transientNoData) ∧
    ((fun _ : Nat => CallResult.otherError) 0 = CallResult.otherError) ∧
    get_current_loop 3 (fun _ => .transientNoData) 6 0 0 =
      get_current_loop 3 (fun _ => .transientNoData) 5 1 0 ∧
    get_current_loop 3 (fun _ => .otherError) 6 0 0 =
      get_current_loop 3 (fun _ => .otherError) 5 1 1 ∧
    get_current 3 (fun _ => .otherError) 4 = some .retriesExceeded := by
  refine ⟨by decide, rfl, rfl, ?_, ?_, ?_⟩
  · have h := C8_retry_accounting.1 3 (fun _ => .transientNoData) 5 0 0
      (by decide) rfl
    simpa using h
  · have h := C8_retry_accounting.2.1 3 (fun _ => .otherError) 5 0 0
      (by decide) rfl
    simpa using h
  · exact C8_retry_accounting.2.2 3 (fun _ => .otherError) (fun j => rfl)

end WH23xx
